import Mathlib

/-!
Verification of the payment data model of `src/types/payments.ts`
(unit-node-sdk).  The resource shapes, request shapes and the patch shape
are translated from the TypeScript declarations; the operations the
specification describes (`parseResource`, `buildRequest`, `applyPatch`,
`narrow`) have no implementation under `src/`, so they are modelled from
the specification text and marked as such in their doc comments.
-/

/-- Modelled from the spec: the file `src/types/common.ts` is imported by
`payments.ts` but is not part of the sources; per the spec a Relationship
is a typed reference, a pair of a resource type and an id. -/
structure Relationship where
  type : String
  id : String
deriving DecidableEq, Repr

/-- Modelled from the spec: `Counterparty` comes from the missing
`src/types/common.ts`; per the glossary it describes the external bank
account on the other side of an ACH payment. -/
structure Counterparty where
  routingNumber : String
  accountNumber : String
  accountType : String
  name : String
deriving DecidableEq, Repr

/-- Modelled from the spec: `WireCounterparty` comes from the missing
`src/types/common.ts`; per the spec it is a superset of the ACH
counterparty fields (adding a postal address). -/
structure WireCounterparty where
  routingNumber : String
  accountNumber : String
  name : String
  address : String
deriving DecidableEq, Repr

/-- Tags are an opaque key-value mapping (TS `object`); modelled as a flat
association list, opaque to every operation of this module. -/
abbrev Tags : Type := List (String × String)

/-- The direction in which the funds flow (source: `"Credit" | "Debit"`). -/
inductive Direction where
  | credit
  | debit
deriving DecidableEq, Repr

/-- Source `payments.ts` line 3: the outbound payment status enum. -/
inductive PaymentStatus where
  | pending
  | pendingReview
  | rejected
  | clearing
  | sent
  | canceled
  | returned
deriving DecidableEq, Repr

/-- Source lines 208-214: the status enum of a received ACH payment,
independent of the outbound `PaymentStatus`. -/
inductive ReceivedStatus where
  | pending
  | advanced
  | completed
  | returned
deriving DecidableEq, Repr

/-- Source lines 7-43: attributes shared by the outbound payment resources. -/
structure BasePaymentAttributes where
  createdAt : String
  status : PaymentStatus
  reason : Option String
  direction : Direction
  description : String
  amount : Int
  tags : Option Tags
deriving DecidableEq, Repr

/-- Source lines 45-65: relationships shared by the outbound payment
resources. -/
structure BasePaymentRelationships where
  account : Relationship
  customer : Option Relationship
  customers : Option (List Relationship)
  transaction : Option Relationship
deriving DecidableEq, Repr

/-- Source lines 81-98: ACH payment attributes, the base attributes plus
the inline counterparty, optional addenda and optional settlement date. -/
structure AchPaymentAttributes extends BasePaymentAttributes where
  counterparty : Counterparty
  addenda : Option String
  settlementDate : Option String
deriving DecidableEq, Repr

/-- Source lines 103-108: ACH payment relationships, the base
relationships plus the stored counterparty reference. -/
structure AchPaymentRelationships extends BasePaymentRelationships where
  counterparty : Relationship
deriving DecidableEq, Repr

/-- Source lines 67-109: the ACH payment resource (discriminator
`achPayment`). -/
structure AchPayment where
  id : String
  attributes : AchPaymentAttributes
  relationships : AchPaymentRelationships
deriving DecidableEq, Repr

/-- Source lines 130-140: book payment relationships, the base
relationships plus the counterparty account and its customer. -/
structure BookPaymentRelationships extends BasePaymentRelationships where
  counterpartyAccount : Relationship
  counterpartyCustomer : Relationship
deriving DecidableEq, Repr

/-- Source lines 111-141: the book payment resource (discriminator
`bookPayment`); its attributes are exactly the base attributes. -/
structure BookPayment where
  id : String
  attributes : BasePaymentAttributes
  relationships : BookPaymentRelationships
deriving DecidableEq, Repr

/-- Source lines 157-164: wire payment attributes, the base attributes
plus the inline wire counterparty. -/
structure WirePaymentAttributes extends BasePaymentAttributes where
  counterparty : WireCounterparty
deriving DecidableEq, Repr

/-- Source lines 143-170: the wire payment resource (discriminator
`wirePayment`). -/
structure WirePayment where
  id : String
  attributes : WirePaymentAttributes
  relationships : BasePaymentRelationships
deriving DecidableEq, Repr

/-- Source line 186: the bill payment attributes are
`Pick<BasePaymentAttributes, "createdAt" | "status" | "direction" |
"description" | "amount" | "tags">` - in particular there is no `reason`
field. -/
structure BillPaymentAttributes where
  createdAt : String
  status : PaymentStatus
  direction : Direction
  description : String
  amount : Int
  tags : Option Tags
deriving DecidableEq, Repr

/-- Source lines 172-192: the bill payment resource (discriminator
`billPayment`). -/
structure BillPayment where
  id : String
  attributes : BillPaymentAttributes
  relationships : BasePaymentRelationships
deriving DecidableEq, Repr

/-- Source lines 208-257: attributes of a received ACH payment.  The
`status` field has its own enum, there is no `reason` and no `direction`
field, and from the base attributes only `createdAt`, `amount`,
`description` and `tags` are picked. -/
structure AchReceivedPaymentAttributes where
  status : ReceivedStatus
  wasAdvanced : Bool
  completionDate : String
  returnReason : Option String
  addenda : Option String
  companyName : String
  counterpartyRoutingNumber : String
  traceNumber : String
  secCode : Option String
  createdAt : String
  amount : Int
  description : String
  tags : Option Tags
deriving DecidableEq, Repr

/-- Source lines 263-278: relationships of a received ACH payment; from
the base relationships only `account` and `customer` are picked (no
`customers`, no `transaction`). -/
structure AchReceivedPaymentRelationships where
  receivePaymentTransaction : Option Relationship
  paymentAdvanceTransaction : Option Relationship
  repayPaymentAdvanceTransaction : Option Relationship
  account : Relationship
  customer : Option Relationship
deriving DecidableEq, Repr

/-- Source lines 194-279: the received ACH payment resource
(discriminator `achReceivedPayment`). -/
structure AchReceivedPayment where
  id : String
  attributes : AchReceivedPaymentAttributes
  relationships : AchReceivedPaymentRelationships
deriving DecidableEq, Repr

/-- Source line 5: `Payment = AchPayment | BookPayment | WirePayment |
BillPayment` - the received ACH payment is not a member of this union. -/
inductive Payment where
  | ach (p : AchPayment)
  | book (p : BookPayment)
  | wire (p : WirePayment)
  | bill (p : BillPayment)
deriving DecidableEq, Repr

/-- The five resource shapes a parsed record can take: the four members
of the `Payment` union plus the received ACH payment. -/
inductive Resource where
  | ach (p : AchPayment)
  | book (p : BookPayment)
  | wire (p : WirePayment)
  | bill (p : BillPayment)
  | received (p : AchReceivedPayment)
deriving DecidableEq, Repr

/-- The `type` discriminator of a member of the `Payment` union. -/
def Payment.tag : Payment → String
  | .ach _ => "achPayment"
  | .book _ => "bookPayment"
  | .wire _ => "wirePayment"
  | .bill _ => "billPayment"

/-- The `type` discriminator of a resource. -/
def Resource.tag : Resource → String
  | .ach _ => "achPayment"
  | .book _ => "bookPayment"
  | .wire _ => "wirePayment"
  | .bill _ => "billPayment"
  | .received _ => "achReceivedPayment"

/-- Source line 282: the discriminators a patch may carry -
`"achPayment" | "bookPayment" | "achReceivedPayment"` (wire and bill
payments are not patchable). -/
inductive PatchableType where
  | achPayment
  | bookPayment
  | achReceivedPayment
deriving DecidableEq, Repr

/-- The discriminator string of a patchable type. -/
def PatchableType.tag : PatchableType → String
  | .achPayment => "achPayment"
  | .bookPayment => "bookPayment"
  | .achReceivedPayment => "achReceivedPayment"

/-- Source lines 283-285: the attributes of a patch are restricted to
`tags`. -/
structure PatchPaymentAttributes where
  tags : Tags
deriving DecidableEq, Repr

/-- Source lines 281-286: the patch request shape. -/
structure PatchPaymentRequest where
  type : PatchableType
  attributes : PatchPaymentAttributes
deriving DecidableEq, Repr

/-- Source lines 293-318: attributes of a wire creation request. -/
structure CreateWirePaymentAttributes where
  amount : Int
  description : String
  counterparty : WireCounterparty
  idempotencyKey : Option String
  tags : Option Tags
deriving DecidableEq, Repr

/-- Source lines 320-325: the wire creation request's relationships hold
only the originating account. -/
structure AccountOnlyRelationships where
  account : Relationship
deriving DecidableEq, Repr

/-- Source lines 290-326: the wire creation request
(discriminator `wirePayment`). -/
structure CreateWirePaymentRequest where
  attributes : CreateWirePaymentAttributes
  relationships : AccountOnlyRelationships
deriving DecidableEq, Repr

/-- Source lines 331-356: attributes of a book creation request; the
direction is optional. -/
structure CreateBookPaymentAttributes where
  amount : Int
  direction : Option Direction
  description : String
  idempotencyKey : Option String
  tags : Option Tags
deriving DecidableEq, Repr

/-- Source lines 358-368: the book creation request's relationships hold
the originating account and the stored counterparty account. -/
structure CreateBookPaymentRelationships where
  account : Relationship
  counterpartyAccount : Relationship
deriving DecidableEq, Repr

/-- Source lines 328-369: the book creation request
(discriminator `bookPayment`). -/
structure CreateBookPaymentRequest where
  attributes : CreateBookPaymentAttributes
  relationships : CreateBookPaymentRelationships
deriving DecidableEq, Repr

/-- Source lines 374-414: attributes of an inline ACH creation request:
the counterparty is given inline. -/
structure CreateInlinePaymentAttributes where
  amount : Int
  direction : Direction
  counterparty : Counterparty
  description : String
  addenda : Option String
  idempotencyKey : Option String
  verifyCounterpartyBalance : Option Bool
  tags : Option Tags
deriving DecidableEq, Repr

/-- Source lines 371-423: the inline ACH creation request
(discriminator `achPayment`); its relationships hold only the account. -/
structure CreateInlinePaymentRequest where
  attributes : CreateInlinePaymentAttributes
  relationships : AccountOnlyRelationships
deriving DecidableEq, Repr

/-- Source lines 428-463: attributes of a linked ACH creation request:
no inline counterparty, it is referenced through the relationships. -/
structure CreateLinkedPaymentAttributes where
  amount : Int
  direction : Direction
  description : String
  addenda : Option String
  idempotencyKey : Option String
  verifyCounterpartyBalance : Option Bool
  tags : Option Tags
deriving DecidableEq, Repr

/-- Source lines 465-475: the linked ACH request's relationships hold the
account and the stored counterparty reference. -/
structure CreateLinkedPaymentRelationships where
  account : Relationship
  counterparty : Relationship
deriving DecidableEq, Repr

/-- Source lines 425-476: the linked ACH creation request
(discriminator `achPayment`). -/
structure CreateLinkedPaymentRequest where
  attributes : CreateLinkedPaymentAttributes
  relationships : CreateLinkedPaymentRelationships
deriving DecidableEq, Repr

/-- Source lines 481-516: attributes of a verified ACH creation request:
a required Plaid processor token stands in place of any inline or
referenced counterparty; the counterparty display name is optional. -/
structure CreateVerifiedPaymentAttributes where
  amount : Int
  direction : Direction
  description : String
  idempotencyKey : Option String
  counterpartyName : Option String
  verifyCounterpartyBalance : Option Bool
  plaidProcessorToken : String
deriving DecidableEq, Repr

/-- Source lines 478-523: the verified ACH creation request
(discriminator `achPayment`); its relationships hold only the account. -/
structure CreateVerifiedPaymentRequest where
  attributes : CreateVerifiedPaymentAttributes
  relationships : AccountOnlyRelationships
deriving DecidableEq, Repr

/-- Source line 288: the union of the five creation request shapes. -/
inductive CreatePaymentRequest where
  | wire (q : CreateWirePaymentRequest)
  | book (q : CreateBookPaymentRequest)
  | inlineAch (q : CreateInlinePaymentRequest)
  | linkedAch (q : CreateLinkedPaymentRequest)
  | verifiedAch (q : CreateVerifiedPaymentRequest)
deriving DecidableEq, Repr

/-- Modelled from the spec: the error taxonomy of section 7 - schema
errors for malformed inbound resources, validation errors for outbound
requests and patches, type mismatches for narrowing; each carries the
offending field or expected discriminator. -/
inductive ModelError where
  | schemaError (field : String)
  | validationError (field : String)
  | typeMismatch (expected : String)
deriving DecidableEq, Repr

/-- Whether an `Except` result is a success. -/
def resultOk {α : Type _} : Except ModelError α → Bool
  | .ok _ => true
  | .error _ => false

/-- The creation timestamp, present on every resource variant. -/
def Resource.createdAtOf : Resource → String
  | .ach a => a.attributes.createdAt
  | .book b => b.attributes.createdAt
  | .wire w => w.attributes.createdAt
  | .bill b => b.attributes.createdAt
  | .received c => c.attributes.createdAt

/-- The amount, present on every resource variant. -/
def Resource.amountOf : Resource → Int
  | .ach a => a.attributes.amount
  | .book b => b.attributes.amount
  | .wire w => w.attributes.amount
  | .bill b => b.attributes.amount
  | .received c => c.attributes.amount

/-- The description, present on every resource variant. -/
def Resource.descriptionOf : Resource → String
  | .ach a => a.attributes.description
  | .book b => b.attributes.description
  | .wire w => w.attributes.description
  | .bill b => b.attributes.description
  | .received c => c.attributes.description

/-- The tags, an optional field of every resource variant. -/
def Resource.tagsOf : Resource → Option Tags
  | .ach a => a.attributes.tags
  | .book b => b.attributes.tags
  | .wire w => w.attributes.tags
  | .bill b => b.attributes.tags
  | .received c => c.attributes.tags

/-- The outbound-lifecycle status of a resource, when the variant carries
one: the received ACH payment's `status` field has its own enum
(`ReceivedStatus`), not `PaymentStatus`, so it yields `none`. -/
def Resource.outboundStatus : Resource → Option PaymentStatus
  | .ach a => some a.attributes.status
  | .book b => some b.attributes.status
  | .wire w => some w.attributes.status
  | .bill b => some b.attributes.status
  | .received _ => none

/-- The direction of a resource, when the variant carries one: the
received ACH payment has no `direction` field. -/
def Resource.directionOf : Resource → Option Direction
  | .ach a => some a.attributes.direction
  | .book b => some b.attributes.direction
  | .wire w => some w.attributes.direction
  | .bill b => some b.attributes.direction
  | .received _ => none

/-- The `reason` field of a resource, when the variant has one: the outer
option is the presence of the field itself (the bill payment's `Pick` and
the received payment's attribute set have no `reason` field), the inner
option is the field's own optionality. -/
def Resource.reasonField : Resource → Option (Option String)
  | .ach a => some a.attributes.reason
  | .book b => some b.attributes.reason
  | .wire w => some w.attributes.reason
  | .bill _ => none
  | .received _ => none

/-- Follows the spec's words (section 3.1, claim C3): a resource carries
the shared attribute set when it has `createdAt`, the outbound `status`
enum, an optional `reason`, a `direction`, a `description`, an `amount`
and optional `tags`.  `createdAt`, `description`, `amount` and `tags` are
total on `Resource` (`Resource.createdAtOf` and friends), so only the
three fields that are not present on every variant are tested. -/
def hasSharedAttributeSet (r : Resource) : Bool :=
  r.outboundStatus.isSome && r.directionOf.isSome && r.reasonField.isSome

/-- Modelled from the spec: parse of an outbound status string
(source line 3 lists the seven values). -/
def parsePaymentStatus : String → Option PaymentStatus
  | "Pending" => some .pending
  | "PendingReview" => some .pendingReview
  | "Rejected" => some .rejected
  | "Clearing" => some .clearing
  | "Sent" => some .sent
  | "Canceled" => some .canceled
  | "Returned" => some .returned
  | _ => none

/-- Modelled from the spec: parse of a received-payment status string
(source line 214 lists the four values). -/
def parseReceivedStatus : String → Option ReceivedStatus
  | "Pending" => some .pending
  | "Advanced" => some .advanced
  | "Completed" => some .completed
  | "Returned" => some .returned
  | _ => none

/-- Modelled from the spec: parse of a direction string. -/
def parseDirection : String → Option Direction
  | "Credit" => some .credit
  | "Debit" => some .debit
  | _ => none

/-- Modelled from the spec: the input of `parseResource`, an untyped
record in which every field that some variant may carry is optional; the
discriminator and the id are plain strings. -/
structure RawResource where
  type : String
  id : String
  createdAt : Option String
  status : Option String
  reason : Option String
  direction : Option String
  description : Option String
  amount : Option Int
  tags : Option Tags
  counterparty : Option Counterparty
  wireCounterparty : Option WireCounterparty
  addenda : Option String
  settlementDate : Option String
  wasAdvanced : Option Bool
  completionDate : Option String
  returnReason : Option String
  companyName : Option String
  counterpartyRoutingNumber : Option String
  traceNumber : Option String
  secCode : Option String
  account : Option Relationship
  customer : Option Relationship
  customers : Option (List Relationship)
  transaction : Option Relationship
  counterpartyRelationship : Option Relationship
  counterpartyAccount : Option Relationship
  counterpartyCustomer : Option Relationship
  receivePaymentTransaction : Option Relationship
  paymentAdvanceTransaction : Option Relationship
  repayPaymentAdvanceTransaction : Option Relationship
deriving DecidableEq, Repr

/-- An absent optional string, or one of length at most `n`. -/
def optLenLe (o : Option String) (n : Nat) : Bool :=
  match o with
  | none => true
  | some s => decide (s.length ≤ n)

/-- Modelled from the spec (section 4.1, `parseResource`): parse of an
`achPayment` record - requires the base attributes, the inline
counterparty, the account and the stored counterparty reference;
description at most 10 characters (ACH family), addenda at most 50. -/
def parseAch (r : RawResource) : Except ModelError AchPayment :=
  match r.amount, r.createdAt, r.status.bind parsePaymentStatus,
        r.direction.bind parseDirection, r.description, r.counterparty,
        r.account, r.counterpartyRelationship with
  | some a, some ca, some st, some dir, some d, some cp, some acc, some cpr =>
      if decide (d.length ≤ 10) && optLenLe r.addenda 50 then
        .ok { id := r.id,
              attributes := { createdAt := ca, status := st, reason := r.reason,
                              direction := dir, description := d, amount := a,
                              tags := r.tags, counterparty := cp,
                              addenda := r.addenda,
                              settlementDate := r.settlementDate },
              relationships := { account := acc, customer := r.customer,
                                 customers := r.customers,
                                 transaction := r.transaction,
                                 counterparty := cpr } }
      else .error (.schemaError "description")
  | _, _, _, _, _, _, _, _ => .error (.schemaError "achPayment")

/-- Modelled from the spec: parse of a `bookPayment` record - base
attributes only, relationships add the counterparty account and its
customer; description at most 50 characters (Wire/Book family). -/
def parseBook (r : RawResource) : Except ModelError BookPayment :=
  match r.amount, r.createdAt, r.status.bind parsePaymentStatus,
        r.direction.bind parseDirection, r.description,
        r.account, r.counterpartyAccount, r.counterpartyCustomer with
  | some a, some ca, some st, some dir, some d, some acc, some cpa, some cpc =>
      if decide (d.length ≤ 50) then
        .ok { id := r.id,
              attributes := { createdAt := ca, status := st, reason := r.reason,
                              direction := dir, description := d, amount := a,
                              tags := r.tags },
              relationships := { account := acc, customer := r.customer,
                                 customers := r.customers,
                                 transaction := r.transaction,
                                 counterpartyAccount := cpa,
                                 counterpartyCustomer := cpc } }
      else .error (.schemaError "description")
  | _, _, _, _, _, _, _, _ => .error (.schemaError "bookPayment")

/-- Modelled from the spec: parse of a `wirePayment` record - base
attributes plus the inline wire counterparty; description at most 50
characters (Wire/Book family). -/
def parseWire (r : RawResource) : Except ModelError WirePayment :=
  match r.amount, r.createdAt, r.status.bind parsePaymentStatus,
        r.direction.bind parseDirection, r.description,
        r.wireCounterparty, r.account with
  | some a, some ca, some st, some dir, some d, some wc, some acc =>
      if decide (d.length ≤ 50) then
        .ok { id := r.id,
              attributes := { createdAt := ca, status := st, reason := r.reason,
                              direction := dir, description := d, amount := a,
                              tags := r.tags, counterparty := wc },
              relationships := { account := acc, customer := r.customer,
                                 customers := r.customers,
                                 transaction := r.transaction } }
      else .error (.schemaError "description")
  | _, _, _, _, _, _, _ => .error (.schemaError "wirePayment")

/-- Modelled from the spec: parse of a `billPayment` record - the
attribute set is the `Pick` of source line 186, so a `reason` field must
be absent; the base comment (source line 30) caps the description at 10
characters. -/
def parseBill (r : RawResource) : Except ModelError BillPayment :=
  match r.amount, r.createdAt, r.status.bind parsePaymentStatus,
        r.direction.bind parseDirection, r.description, r.account with
  | some a, some ca, some st, some dir, some d, some acc =>
      if decide (d.length ≤ 10) && r.reason.isNone then
        .ok { id := r.id,
              attributes := { createdAt := ca, status := st, direction := dir,
                              description := d, amount := a, tags := r.tags },
              relationships := { account := acc, customer := r.customer,
                                 customers := r.customers,
                                 transaction := r.transaction } }
      else .error (.schemaError "description")
  | _, _, _, _, _, _ => .error (.schemaError "billPayment")

/-- Modelled from the spec: parse of an `achReceivedPayment` record - its
own status enum, the received-specific required fields, and absence of
the fields its `Pick`s exclude (`reason`, `direction`, `customers`,
`transaction`); description at most 10 (ACH family), addenda at most 50. -/
def parseReceived (r : RawResource) : Except ModelError AchReceivedPayment :=
  match r.amount, r.createdAt, r.status.bind parseReceivedStatus,
        r.description, r.wasAdvanced, r.completionDate, r.companyName,
        r.counterpartyRoutingNumber, r.traceNumber, r.account with
  | some a, some ca, some st, some d, some wa, some cd, some cn,
    some crn, some tn, some acc =>
      if decide (d.length ≤ 10) && optLenLe r.addenda 50 && r.reason.isNone &&
         r.direction.isNone && r.customers.isNone && r.transaction.isNone then
        .ok { id := r.id,
              attributes := { status := st, wasAdvanced := wa,
                              completionDate := cd,
                              returnReason := r.returnReason,
                              addenda := r.addenda, companyName := cn,
                              counterpartyRoutingNumber := crn,
                              traceNumber := tn, secCode := r.secCode,
                              createdAt := ca, amount := a, description := d,
                              tags := r.tags },
              relationships := { receivePaymentTransaction := r.receivePaymentTransaction,
                                 paymentAdvanceTransaction := r.paymentAdvanceTransaction,
                                 repayPaymentAdvanceTransaction := r.repayPaymentAdvanceTransaction,
                                 account := acc, customer := r.customer } }
      else .error (.schemaError "description")
  | _, _, _, _, _, _, _, _, _, _ => .error (.schemaError "achReceivedPayment")

/-- Modelled from the spec (section 4.1): `parseResource` - confirms the
discriminator is one of the five known values, that `customer` and
`customers` are not both set, that the amount is present and positive,
and then parses the variant's own required fields; it returns the
narrowed variant or a schema error naming the offending field. -/
def parseResource (r : RawResource) : Except ModelError Resource :=
  if r.customer.isSome && r.customers.isSome then .error (.schemaError "customers")
  else
    match r.amount with
    | none => .error (.schemaError "amount")
    | some a =>
      if a ≤ 0 then .error (.schemaError "amount")
      else if r.type = "achPayment" then (parseAch r).map Resource.ach
      else if r.type = "bookPayment" then (parseBook r).map Resource.book
      else if r.type = "wirePayment" then (parseWire r).map Resource.wire
      else if r.type = "billPayment" then (parseBill r).map Resource.bill
      else if r.type = "achReceivedPayment" then (parseReceived r).map Resource.received
      else .error (.schemaError "type")

/-- Whether the raw status string parses as an outbound status. -/
def statusOk (r : RawResource) : Bool :=
  (r.status.bind parsePaymentStatus).isSome

/-- Whether the raw direction string parses as a direction. -/
def directionOk (r : RawResource) : Bool :=
  (r.direction.bind parseDirection).isSome

/-- A present description of length at most `n`. -/
def descLenLe (r : RawResource) (n : Nat) : Bool :=
  match r.description with
  | some d => decide (d.length ≤ n)
  | none => false

/-- A present, positive amount. -/
def amountPos (r : RawResource) : Bool :=
  match r.amount with
  | some a => decide (0 < a)
  | none => false

/-- Validity of an `achPayment` record: the fields `parseAch` requires. -/
def validAchRaw (r : RawResource) : Bool :=
  r.createdAt.isSome && statusOk r && directionOk r && descLenLe r 10 &&
  optLenLe r.addenda 50 && r.counterparty.isSome && r.account.isSome &&
  r.counterpartyRelationship.isSome

/-- Validity of a `bookPayment` record: the fields `parseBook` requires. -/
def validBookRaw (r : RawResource) : Bool :=
  r.createdAt.isSome && statusOk r && directionOk r && descLenLe r 50 &&
  r.account.isSome && r.counterpartyAccount.isSome &&
  r.counterpartyCustomer.isSome

/-- Validity of a `wirePayment` record: the fields `parseWire` requires. -/
def validWireRaw (r : RawResource) : Bool :=
  r.createdAt.isSome && statusOk r && directionOk r && descLenLe r 50 &&
  r.wireCounterparty.isSome && r.account.isSome

/-- Validity of a `billPayment` record: the fields `parseBill` requires. -/
def validBillRaw (r : RawResource) : Bool :=
  r.createdAt.isSome && statusOk r && directionOk r && descLenLe r 10 &&
  r.reason.isNone && r.account.isSome

/-- Validity of an `achReceivedPayment` record: the fields
`parseReceived` requires. -/
def validReceivedRaw (r : RawResource) : Bool :=
  r.createdAt.isSome && (r.status.bind parseReceivedStatus).isSome &&
  descLenLe r 10 && optLenLe r.addenda 50 && r.wasAdvanced.isSome &&
  r.completionDate.isSome && r.companyName.isSome &&
  r.counterpartyRoutingNumber.isSome && r.traceNumber.isSome &&
  r.reason.isNone && r.direction.isNone && r.customers.isNone &&
  r.transaction.isNone && r.account.isSome

/-- A valid raw resource record: a recognized discriminator, `customer`
and `customers` not both set, a positive amount, and the fields the
discriminator's variant requires. -/
def validRaw (r : RawResource) : Bool :=
  !(r.customer.isSome && r.customers.isSome) && amountPos r &&
  (if r.type = "achPayment" then validAchRaw r
   else if r.type = "bookPayment" then validBookRaw r
   else if r.type = "wirePayment" then validWireRaw r
   else if r.type = "billPayment" then validBillRaw r
   else if r.type = "achReceivedPayment" then validReceivedRaw r
   else false)

/-- Modelled from the spec (section 4.1, `buildRequest`): the input of
`buildRequest`, an untyped creation payload carrying a discriminator,
the attribute fields any request variant may use, and the relationship
references any request variant may use. -/
structure RawCreateRequest where
  type : String
  amount : Int
  direction : Option Direction
  description : String
  addenda : Option String
  idempotencyKey : Option String
  counterpartyName : Option String
  verifyCounterpartyBalance : Option Bool
  tags : Option Tags
  counterparty : Option Counterparty
  wireCounterparty : Option WireCounterparty
  plaidProcessorToken : Option String
  account : Option Relationship
  counterpartyRelationship : Option Relationship
  counterpartyAccount : Option Relationship
deriving DecidableEq, Repr

/-- The number of counterparty-specification mechanisms present on a raw
creation payload: the inline counterparty object, the stored counterparty
relationship reference, and the bank-linking verification token. -/
def mechanismCount (q : RawCreateRequest) : Nat :=
  (if q.counterparty.isSome then 1 else 0) +
  (if q.counterpartyRelationship.isSome then 1 else 0) +
  (if q.plaidProcessorToken.isSome then 1 else 0)

/-- Modelled from the spec: build of a `wirePayment` creation request -
needs the wire counterparty and the account, a positive amount and a
description of at most 50 characters. -/
def buildWire (q : RawCreateRequest) : Except ModelError CreatePaymentRequest :=
  match q.wireCounterparty, q.account with
  | some wc, some acc =>
      if q.amount ≤ 0 then .error (.validationError "amount")
      else if 50 < q.description.length then .error (.validationError "description")
      else .ok (.wire { attributes := { amount := q.amount,
                                        description := q.description,
                                        counterparty := wc,
                                        idempotencyKey := q.idempotencyKey,
                                        tags := q.tags },
                        relationships := { account := acc } })
  | _, _ => .error (.validationError "relationships")

/-- Modelled from the spec: build of a `bookPayment` creation request -
needs the account and the stored counterparty account, a positive amount
and a description of at most 50 characters; the direction is optional. -/
def buildBook (q : RawCreateRequest) : Except ModelError CreatePaymentRequest :=
  match q.account, q.counterpartyAccount with
  | some acc, some cpa =>
      if q.amount ≤ 0 then .error (.validationError "amount")
      else if 50 < q.description.length then .error (.validationError "description")
      else .ok (.book { attributes := { amount := q.amount,
                                        direction := q.direction,
                                        description := q.description,
                                        idempotencyKey := q.idempotencyKey,
                                        tags := q.tags },
                        relationships := { account := acc,
                                           counterpartyAccount := cpa } })
  | _, _ => .error (.validationError "relationships")

/-- Modelled from the spec: build of an `achPayment` creation request -
needs the direction and the account, a positive amount, a description of
at most 10 characters and an addenda of at most 50; exactly one of the
three counterparty-specification mechanisms must be present, and the one
that is selects the inline, linked or verified request variant. -/
def buildAch (q : RawCreateRequest) : Except ModelError CreatePaymentRequest :=
  match q.direction, q.account with
  | some dir, some acc =>
      if q.amount ≤ 0 then .error (.validationError "amount")
      else if 10 < q.description.length then .error (.validationError "description")
      else if optLenLe q.addenda 50 = false then .error (.validationError "addenda")
      else
        match q.counterparty, q.counterpartyRelationship, q.plaidProcessorToken with
        | some cp, none, none =>
            .ok (.inlineAch { attributes := { amount := q.amount, direction := dir,
                                              counterparty := cp,
                                              description := q.description,
                                              addenda := q.addenda,
                                              idempotencyKey := q.idempotencyKey,
                                              verifyCounterpartyBalance := q.verifyCounterpartyBalance,
                                              tags := q.tags },
                              relationships := { account := acc } })
        | none, some cpr, none =>
            .ok (.linkedAch { attributes := { amount := q.amount, direction := dir,
                                              description := q.description,
                                              addenda := q.addenda,
                                              idempotencyKey := q.idempotencyKey,
                                              verifyCounterpartyBalance := q.verifyCounterpartyBalance,
                                              tags := q.tags },
                              relationships := { account := acc,
                                                 counterparty := cpr } })
        | none, none, some tok =>
            .ok (.verifiedAch { attributes := { amount := q.amount, direction := dir,
                                                description := q.description,
                                                idempotencyKey := q.idempotencyKey,
                                                counterpartyName := q.counterpartyName,
                                                verifyCounterpartyBalance := q.verifyCounterpartyBalance,
                                                plaidProcessorToken := tok },
                                relationships := { account := acc } })
        | _, _, _ => .error (.validationError "counterparty")
  | _, _ => .error (.validationError "relationships")

/-- Modelled from the spec (section 4.1): `buildRequest` - dispatches on
the discriminator, rejecting unknown ones, and validates the chosen
request kind's attributes and relationships. -/
def buildRequest (q : RawCreateRequest) : Except ModelError CreatePaymentRequest :=
  if q.type = "wirePayment" then buildWire q
  else if q.type = "bookPayment" then buildBook q
  else if q.type = "achPayment" then buildAch q
  else .error (.validationError "type")

/-- Replace the tags of a resource (the only attribute a patch may touch). -/
def Resource.withTags : Resource → Option Tags → Resource
  | .ach a, t => .ach { a with attributes := { a.attributes with tags := t } }
  | .book b, t => .book { b with attributes := { b.attributes with tags := t } }
  | .wire w, t => .wire { w with attributes := { w.attributes with tags := t } }
  | .bill b, t => .bill { b with attributes := { b.attributes with tags := t } }
  | .received c, t => .received { c with attributes := { c.attributes with tags := t } }

/-- A resource with its tags removed; two resources with equal
`eraseTags` images agree on everything except possibly the tags. -/
def Resource.eraseTags (r : Resource) : Resource := r.withTags none

/-- Modelled from the spec (sections 3.5 and 4.1): `applyPatch` - wire
and bill payments are not patchable; otherwise the patch's discriminator
must match the resource's, and only the `tags` attribute is replaced
(the spec's design notes fix the merge as a full replace). -/
def applyPatch (r : Resource) (p : PatchPaymentRequest) : Except ModelError Resource :=
  match r with
  | .wire _ => .error (.validationError "type")
  | .bill _ => .error (.validationError "type")
  | _ =>
      if p.type.tag = r.tag then .ok (r.withTags (some p.attributes.tags))
      else .error (.validationError "type")

/-- Modelled from the spec (section 4.1): `narrow` - safe downcast of a
member of the `Payment` union by discriminator comparison. -/
def narrow (p : Payment) (expected : String) : Except ModelError Payment :=
  if p.tag = expected then .ok p else .error (.typeMismatch expected)

/-- A string of `n` letters, used to exercise the length ceilings. -/
def strN (n : Nat) : String := String.mk (List.replicate n 'a')

/-- A concrete deposit-account reference. -/
def acct1 : Relationship := { type := "depositAccount", id := "acc_1" }

/-- A concrete stored-counterparty reference. -/
def cprel1 : Relationship := { type := "counterparty", id := "cp_1" }

/-- A concrete inline ACH counterparty. -/
def cp1 : Counterparty :=
  { routingNumber := "812345678", accountNumber := "1000000001",
    accountType := "Checking", name := "Jane Doe" }

/-- A concrete inline wire counterparty. -/
def wcp1 : WireCounterparty :=
  { routingNumber := "812345678", accountNumber := "1000000001",
    name := "Jane Doe", address := "20 Ingram St" }

/-- A raw wire creation payload that passes every validation. -/
def wireRaw1 : RawCreateRequest :=
  { type := "wirePayment", amount := 1000, direction := none,
    description := "rent", addenda := none, idempotencyKey := none,
    counterpartyName := none, verifyCounterpartyBalance := none,
    tags := none, counterparty := none, wireCounterparty := some wcp1,
    plaidProcessorToken := none, account := some acct1,
    counterpartyRelationship := none, counterpartyAccount := none }

/-- A raw book creation payload that passes every validation. -/
def bookRaw1 : RawCreateRequest :=
  { wireRaw1 with type := "bookPayment", wireCounterparty := none,
                  counterpartyAccount := some cprel1 }

/-- A raw inline ACH creation payload that passes every validation. -/
def achInlineRaw1 : RawCreateRequest :=
  { wireRaw1 with type := "achPayment", direction := some .credit,
                  wireCounterparty := none, counterparty := some cp1 }

/-- A raw verified ACH creation payload that passes every validation. -/
def achVerifiedRaw1 : RawCreateRequest :=
  { wireRaw1 with type := "achPayment", direction := some .credit,
                  wireCounterparty := none,
                  counterpartyName := some "Jane Doe",
                  plaidProcessorToken := some "processor-token-1" }

/-- A raw ACH creation payload with no counterparty mechanism at all. -/
def achNoMechanismRaw : RawCreateRequest :=
  { achInlineRaw1 with counterparty := none }


/-- A raw resource record with every optional field absent. -/
def emptyRawResource : RawResource :=
  { type := "", id := "", createdAt := none, status := none, reason := none,
    direction := none, description := none, amount := none, tags := none,
    counterparty := none, wireCounterparty := none, addenda := none,
    settlementDate := none, wasAdvanced := none, completionDate := none,
    returnReason := none, companyName := none,
    counterpartyRoutingNumber := none, traceNumber := none, secCode := none,
    account := none, customer := none, customers := none, transaction := none,
    counterpartyRelationship := none, counterpartyAccount := none,
    counterpartyCustomer := none, receivePaymentTransaction := none,
    paymentAdvanceTransaction := none,
    repayPaymentAdvanceTransaction := none }

/-- A valid raw `wirePayment` resource record. -/
def wireResRaw1 : RawResource :=
  { emptyRawResource with
      type := "wirePayment", id := "wire_1",
      createdAt := some "2020-01-01T00:00:00Z", status := some "Sent",
      direction := some "Credit", description := some "rent",
      amount := some 1000, wireCounterparty := some wcp1,
      account := some acct1 }

/-- A valid raw `achReceivedPayment` resource record. -/
def receivedResRaw1 : RawResource :=
  { emptyRawResource with
      type := "achReceivedPayment", id := "rcv_1",
      createdAt := some "2020-01-01T00:00:00Z", status := some "Advanced",
      description := some "payroll", amount := some 2000,
      wasAdvanced := some true,
      completionDate := some "2020-01-03T00:00:00Z",
      companyName := some "Acme", counterpartyRoutingNumber := some "812345678",
      traceNumber := some "123456789012345", account := some acct1 }

/-- A raw resource record with both `customer` and `customers` set. -/
def bothCustomersRaw : RawResource :=
  { wireResRaw1 with customer := some acct1, customers := some [acct1] }


/-- A concrete ACH payment resource. -/
def achRes1 : AchPayment :=
  { id := "ach_1",
    attributes := { createdAt := "2020-01-01T00:00:00Z", status := .sent,
                    reason := none, direction := .credit,
                    description := "rent", amount := 1000,
                    tags := some [("purpose", "rent")],
                    counterparty := cp1, addenda := none,
                    settlementDate := none },
    relationships := { account := acct1, customer := none, customers := none,
                       transaction := none, counterparty := cprel1 } }

/-- A concrete book payment resource. -/
def bookRes1 : BookPayment :=
  { id := "book_1",
    attributes := { createdAt := "2020-01-01T00:00:00Z", status := .sent,
                    reason := none, direction := .credit,
                    description := "rent", amount := 1000, tags := none },
    relationships := { account := acct1, customer := none, customers := none,
                       transaction := none, counterpartyAccount := cprel1,
                       counterpartyCustomer := cprel1 } }

/-- A concrete wire payment resource. -/
def wireRes1 : WirePayment :=
  { id := "wire_1",
    attributes := { createdAt := "2020-01-01T00:00:00Z", status := .sent,
                    reason := none, direction := .credit,
                    description := "rent", amount := 1000, tags := none,
                    counterparty := wcp1 },
    relationships := { account := acct1, customer := none, customers := none,
                       transaction := none } }

/-- A concrete bill payment resource. -/
def billRes1 : BillPayment :=
  { id := "bill_1",
    attributes := { createdAt := "2020-01-01T00:00:00Z", status := .sent,
                    direction := .credit, description := "electric",
                    amount := 1000, tags := none },
    relationships := { account := acct1, customer := none, customers := none,
                       transaction := none } }

/-- A concrete received ACH payment resource. -/
def receivedRes1 : AchReceivedPayment :=
  { id := "rcv_1",
    attributes := { status := .advanced, wasAdvanced := true,
                    completionDate := "2020-01-03T00:00:00Z",
                    returnReason := none, addenda := none,
                    companyName := "Acme",
                    counterpartyRoutingNumber := "812345678",
                    traceNumber := "123456789012345", secCode := none,
                    createdAt := "2020-01-01T00:00:00Z", amount := 2000,
                    description := "payroll", tags := none },
    relationships := { receivePaymentTransaction := none,
                       paymentAdvanceTransaction := none,
                       repayPaymentAdvanceTransaction := none,
                       account := acct1, customer := none } }

/-- A concrete patch carrying the `achPayment` discriminator. -/
def patchAch1 : PatchPaymentRequest :=
  { type := .achPayment, attributes := { tags := [("note", "updated")] } }

/-- A concrete patch carrying the `bookPayment` discriminator. -/
def patchBook1 : PatchPaymentRequest :=
  { type := .bookPayment, attributes := { tags := [("note", "updated")] } }

/-- A concrete patch carrying the `achReceivedPayment` discriminator. -/
def patchReceived1 : PatchPaymentRequest :=
  { type := .achReceivedPayment, attributes := { tags := [("note", "updated")] } }


/-- C10: the `Payment` union comprises exactly the four outbound
discriminators `achPayment`, `bookPayment`, `wirePayment`, `billPayment`;
`AchReceivedPayment` is not a member, so narrowing any `Payment` to
`achReceivedPayment` fails with a type mismatch. -/
theorem payment_union_excludes_received :
    (∀ p : Payment,
        Payment.tag p = "achPayment" ∨ Payment.tag p = "bookPayment" ∨
        Payment.tag p = "wirePayment" ∨ Payment.tag p = "billPayment") ∧
    (∀ p : Payment, narrow p "achReceivedPayment" =
        Except.error (ModelError.typeMismatch "achReceivedPayment")) := by
  constructor
  · intro p
    cases p <;> simp [Payment.tag]
  · intro p
    cases p <;> rfl

/-- C5: `applyPatch` on a wire or a bill payment fails with a validation
error whatever the patch holds, and the discriminators a patch may carry
are exactly `achPayment`, `bookPayment` and `achReceivedPayment` - each
of the three can be applied successfully to a resource of its kind. -/
theorem applyPatch_wire_bill_immutable :
    (∀ (w : WirePayment) (p : PatchPaymentRequest),
        applyPatch (Resource.wire w) p =
          Except.error (ModelError.validationError "type")) ∧
    (∀ (b : BillPayment) (p : PatchPaymentRequest),
        applyPatch (Resource.bill b) p =
          Except.error (ModelError.validationError "type")) ∧
    (∀ t : PatchableType,
        PatchableType.tag t = "achPayment" ∨
        PatchableType.tag t = "bookPayment" ∨
        PatchableType.tag t = "achReceivedPayment") ∧
    resultOk (applyPatch (Resource.ach achRes1) patchAch1) = true ∧
    resultOk (applyPatch (Resource.book bookRes1) patchBook1) = true ∧
    resultOk (applyPatch (Resource.received receivedRes1) patchReceived1) = true := by
  refine ⟨fun w p => rfl, fun b p => rfl, ?_, by decide, by decide, by decide⟩
  intro t
  cases t <;> simp [PatchableType.tag]

/-- C3 counterexample: the claim says every resource variant carries the
full shared attribute set, but a concrete bill payment (no `reason`
field) and a concrete received ACH payment (own status enum, no
`direction`, no `reason`) do not. -/
theorem shared_attribute_set_counterexample :
    hasSharedAttributeSet (Resource.bill billRes1) = false ∧
    hasSharedAttributeSet (Resource.received receivedRes1) = false := by
  constructor <;> rfl

/-- C3 amended: the ACH, book and wire variants carry the full shared
attribute set; the bill payment carries all of it except the optional
`reason` field; the received ACH payment carries `createdAt`, `amount`,
`description` and `tags` but has its own status enum and neither a
`direction` nor a `reason` field. -/
theorem shared_attribute_set_amended :
    (∀ a : AchPayment, hasSharedAttributeSet (Resource.ach a) = true) ∧
    (∀ b : BookPayment, hasSharedAttributeSet (Resource.book b) = true) ∧
    (∀ w : WirePayment, hasSharedAttributeSet (Resource.wire w) = true) ∧
    (∀ b : BillPayment,
        (Resource.bill b).outboundStatus = some b.attributes.status ∧
        (Resource.bill b).directionOf = some b.attributes.direction ∧
        (Resource.bill b).reasonField = none) ∧
    (∀ c : AchReceivedPayment,
        (Resource.received c).outboundStatus = none ∧
        (Resource.received c).directionOf = none ∧
        (Resource.received c).reasonField = none ∧
        Resource.createdAtOf (Resource.received c) = c.attributes.createdAt ∧
        Resource.amountOf (Resource.received c) = c.attributes.amount ∧
        Resource.descriptionOf (Resource.received c) = c.attributes.description ∧
        Resource.tagsOf (Resource.received c) = c.attributes.tags) := by
  refine ⟨fun a => rfl, fun b => rfl, fun w => rfl, fun b => ?_, fun c => ?_⟩
  · exact ⟨rfl, rfl, rfl⟩
  · exact ⟨rfl, rfl, rfl, rfl, rfl, rfl, rfl⟩

/-- C7: a raw record with both the `customer` and the `customers`
relationship set fails `parseResource`, whatever else it holds. -/
theorem parseResource_customer_customers_exclusive (r : RawResource)
    (h1 : r.customer.isSome = true) (h2 : r.customers.isSome = true) :
    resultOk (parseResource r) = false := by
  unfold parseResource
  simp [h1, h2, resultOk]

/-- C7 witness: a concrete raw wire record carrying both relationships. -/
theorem parseResource_customer_customers_exclusive_witness :
    resultOk (parseResource bothCustomersRaw) = false :=
  parseResource_customer_customers_exclusive bothCustomersRaw (by decide) (by decide)

/-- C6: when `applyPatch` succeeds, the result agrees with the input on
everything except possibly the tags (same image under `eraseTags`, hence
same id, discriminator, attributes and relationships), and its tags are
the patch's tags. -/
theorem applyPatch_frame (r s : Resource) (p : PatchPaymentRequest)
    (h : applyPatch r p = Except.ok s) :
    Resource.eraseTags s = Resource.eraseTags r ∧
    Resource.tag s = Resource.tag r ∧
    Resource.tagsOf s = some p.attributes.tags := by
  cases r with
  | wire w => simp [applyPatch] at h
  | bill b => simp [applyPatch] at h
  | ach a =>
    simp only [applyPatch] at h
    split at h
    · injection h with h
      subst h
      exact ⟨rfl, rfl, rfl⟩
    · exact absurd h (by simp)
  | book b =>
    simp only [applyPatch] at h
    split at h
    · injection h with h
      subst h
      exact ⟨rfl, rfl, rfl⟩
    · exact absurd h (by simp)
  | received c =>
    simp only [applyPatch] at h
    split at h
    · injection h with h
      subst h
      exact ⟨rfl, rfl, rfl⟩
    · exact absurd h (by simp)

/-- The resource produced by patching `achRes1` with `patchAch1`. -/
def achPatched1 : Resource :=
  Resource.withTags (Resource.ach achRes1) (some patchAch1.attributes.tags)

/-- C6 witness: the frame property at a concrete ACH resource and patch. -/
theorem applyPatch_frame_witness :
    Resource.eraseTags achPatched1 = Resource.eraseTags (Resource.ach achRes1) ∧
    Resource.tag achPatched1 = Resource.tag (Resource.ach achRes1) ∧
    Resource.tagsOf achPatched1 = some patchAch1.attributes.tags :=
  applyPatch_frame (Resource.ach achRes1) achPatched1 patchAch1 rfl

/-- C4: a wire or book creation payload with a 51-character description
fails and one with a 50-character description succeeds; an inline ACH
creation payload with an 11-character description fails and one with a
10-character description succeeds. -/
theorem buildRequest_description_length :
    resultOk (buildRequest { wireRaw1 with description := strN 51 }) = false ∧
    resultOk (buildRequest { wireRaw1 with description := strN 50 }) = true ∧
    resultOk (buildRequest { bookRaw1 with description := strN 51 }) = false ∧
    resultOk (buildRequest { bookRaw1 with description := strN 50 }) = true ∧
    resultOk (buildRequest { achInlineRaw1 with description := strN 11 }) = false ∧
    resultOk (buildRequest { achInlineRaw1 with description := strN 10 }) = true :=
  ⟨by decide, by decide, by decide, by decide, by decide, by decide⟩

/-- C8: a creation payload with a non-positive amount always fails
`buildRequest`; a raw resource with amount 0 or -500 always fails
`parseResource`; a concrete wire creation payload with amount 1
succeeds. -/
theorem amount_must_be_positive :
    (∀ q : RawCreateRequest, q.amount ≤ 0 → resultOk (buildRequest q) = false) ∧
    (∀ r : RawResource, r.amount = some 0 ∨ r.amount = some (-500) →
        resultOk (parseResource r) = false) ∧
    resultOk (buildRequest { wireRaw1 with amount := 1 }) = true := by
  refine ⟨?_, ?_, by decide⟩
  · intro q hq
    unfold buildRequest
    by_cases t1 : q.type = "wirePayment"
    · rw [if_pos t1]
      unfold buildWire
      rcases hw : q.wireCounterparty with _ | wc <;>
        rcases ha : q.account with _ | acc <;> simp [hw, ha, hq, resultOk]
    · rw [if_neg t1]
      by_cases t2 : q.type = "bookPayment"
      · rw [if_pos t2]
        unfold buildBook
        rcases ha : q.account with _ | acc <;>
          rcases hc : q.counterpartyAccount with _ | cpa <;>
            simp [ha, hc, hq, resultOk]
      · rw [if_neg t2]
        by_cases t3 : q.type = "achPayment"
        · rw [if_pos t3]
          unfold buildAch
          rcases hd : q.direction with _ | dir <;>
            rcases ha : q.account with _ | acc <;> simp [hd, ha, hq, resultOk]
        · rw [if_neg t3]; rfl
  · intro r hr
    unfold parseResource
    by_cases hc : r.customer.isSome && r.customers.isSome
    · simp [hc, resultOk]
    · rcases hr with hr | hr <;> simp [hc, hr, resultOk]

/-- C8 witness: the failure cases at concrete inputs (amount 0 on a
creation payload, amount 0 on a raw resource). -/
theorem amount_must_be_positive_witness :
    resultOk (buildRequest { wireRaw1 with amount := 0 }) = false ∧
    resultOk (parseResource { wireResRaw1 with amount := some 0 }) = false :=
  ⟨amount_must_be_positive.1 { wireRaw1 with amount := 0 } (by decide),
   amount_must_be_positive.2.1 { wireResRaw1 with amount := some 0 } (Or.inl rfl)⟩

/-- C2: for an `achPayment` creation payload, `buildRequest` succeeds
only when exactly one of the three counterparty-specification mechanisms
(inline counterparty object, stored counterparty relationship reference,
bank-linking verification token) is present, and it fails whenever zero
or more than one of them is present. -/
theorem buildRequest_ach_exactly_one_mechanism (q : RawCreateRequest)
    (h : q.type = "achPayment") :
    (resultOk (buildRequest q) = true → mechanismCount q = 1) ∧
    (mechanismCount q ≠ 1 → resultOk (buildRequest q) = false) := by
  have hb : buildRequest q = buildAch q := by
    unfold buildRequest
    rw [if_neg (by rw [h]; decide), if_neg (by rw [h]; decide), if_pos h]
  have key : mechanismCount q ≠ 1 → resultOk (buildRequest q) = false := by
    intro hcount
    rw [hb]
    unfold buildAch
    rcases hc : q.counterparty with _ | cp <;>
      rcases hr : q.counterpartyRelationship with _ | cr <;>
        rcases ht : q.plaidProcessorToken with _ | tok <;>
          simp [mechanismCount, hc, hr, ht] at hcount <;>
            rcases hd : q.direction with _ | dir <;>
              rcases ha : q.account with _ | acc <;>
                simp [hd, ha, resultOk] <;>
                  split_ifs <;> simp [resultOk]
  refine ⟨?_, key⟩
  intro hx
  by_contra hne
  rw [key hne] at hx
  exact Bool.false_ne_true hx

/-- C2 witness: a concrete ACH payload with zero mechanisms fails, and a
concrete successful inline ACH payload has exactly one mechanism. -/
theorem buildRequest_ach_exactly_one_mechanism_witness :
    resultOk (buildRequest achNoMechanismRaw) = false ∧
    mechanismCount achInlineRaw1 = 1 :=
  ⟨(buildRequest_ach_exactly_one_mechanism achNoMechanismRaw rfl).2 (by decide),
   (buildRequest_ach_exactly_one_mechanism achInlineRaw1 rfl).1 (by decide)⟩

/-- C9: whenever `buildRequest` produces a verified ACH request, that
request consists of the payload's amount (positive), direction,
description (at most 10 characters), optional idempotency key, optional
counterparty display name and optional balance-verification flag, plus
the required bank-linking token taken from the payload - with no inline
counterparty and no stored counterparty reference present - and its only
relationship is the originating account. -/
theorem buildRequest_verified_shape (q : RawCreateRequest)
    (v : CreateVerifiedPaymentRequest)
    (h : buildRequest q = Except.ok (CreatePaymentRequest.verifiedAch v)) :
    v.attributes.amount = q.amount ∧ 0 < q.amount ∧
    q.direction = some v.attributes.direction ∧
    v.attributes.description = q.description ∧ q.description.length ≤ 10 ∧
    v.attributes.idempotencyKey = q.idempotencyKey ∧
    v.attributes.counterpartyName = q.counterpartyName ∧
    v.attributes.verifyCounterpartyBalance = q.verifyCounterpartyBalance ∧
    q.plaidProcessorToken = some v.attributes.plaidProcessorToken ∧
    q.counterparty = none ∧ q.counterpartyRelationship = none ∧
    q.account = some v.relationships.account := by
  unfold buildRequest at h
  by_cases t1 : q.type = "wirePayment"
  · rw [if_pos t1] at h
    unfold buildWire at h
    rcases hw : q.wireCounterparty with _ | wc <;>
      rcases ha : q.account with _ | acc <;>
        simp [hw, ha] at h <;> split_ifs at h <;> simp at h
  · rw [if_neg t1] at h
    by_cases t2 : q.type = "bookPayment"
    · rw [if_pos t2] at h
      unfold buildBook at h
      rcases ha : q.account with _ | acc <;>
        rcases hc : q.counterpartyAccount with _ | cpa <;>
          simp [ha, hc] at h <;> split_ifs at h <;> simp at h
    · rw [if_neg t2] at h
      by_cases t3 : q.type = "achPayment"
      · rw [if_pos t3] at h
        unfold buildAch at h
        rcases hd : q.direction with _ | dir <;>
          rcases ha : q.account with _ | acc <;>
            simp [hd, ha] at h
        split_ifs at h with h1 h2 h3
        rcases hc : q.counterparty with _ | cp <;>
          rcases hr : q.counterpartyRelationship with _ | cr <;>
            rcases ht : q.plaidProcessorToken with _ | tok <;>
              simp [hc, hr, ht] at h
        subst h
        exact ⟨rfl, by omega, rfl, rfl, by omega, rfl, rfl, rfl, rfl, rfl, rfl, rfl⟩
      · rw [if_neg t3] at h
        exact absurd h (by simp)

/-- The verified ACH request built from `achVerifiedRaw1`. -/
def verifiedReq1 : CreateVerifiedPaymentRequest :=
  { attributes := { amount := 1000, direction := .credit,
                    description := "rent", idempotencyKey := none,
                    counterpartyName := some "Jane Doe",
                    verifyCounterpartyBalance := none,
                    plaidProcessorToken := "processor-token-1" },
    relationships := { account := acct1 } }

/-- C9 witness: the verified-request shape at a concrete payload. -/
theorem buildRequest_verified_shape_witness :
    verifiedReq1.attributes.amount = achVerifiedRaw1.amount ∧
    0 < achVerifiedRaw1.amount ∧
    achVerifiedRaw1.direction = some verifiedReq1.attributes.direction ∧
    verifiedReq1.attributes.description = achVerifiedRaw1.description ∧
    achVerifiedRaw1.description.length ≤ 10 ∧
    verifiedReq1.attributes.idempotencyKey = achVerifiedRaw1.idempotencyKey ∧
    verifiedReq1.attributes.counterpartyName = achVerifiedRaw1.counterpartyName ∧
    verifiedReq1.attributes.verifyCounterpartyBalance = achVerifiedRaw1.verifyCounterpartyBalance ∧
    achVerifiedRaw1.plaidProcessorToken = some verifiedReq1.attributes.plaidProcessorToken ∧
    achVerifiedRaw1.counterparty = none ∧
    achVerifiedRaw1.counterpartyRelationship = none ∧
    achVerifiedRaw1.account = some verifiedReq1.relationships.account :=
  buildRequest_verified_shape achVerifiedRaw1 verifiedReq1 rfl

/-- A valid `achPayment` record parses successfully. -/
theorem parseAch_ok (r : RawResource) (h : validAchRaw r = true)
    (hamt : r.amount.isSome = true) :
    ∃ a : AchPayment, parseAch r = Except.ok a := by
  obtain ⟨amt, hamt2⟩ := Option.isSome_iff_exists.mp hamt
  unfold validAchRaw statusOk directionOk descLenLe at h
  simp only [Bool.and_eq_true] at h
  obtain ⟨⟨⟨⟨⟨⟨⟨h1, h2⟩, h3⟩, h4⟩, h5⟩, h6⟩, h7⟩, h8⟩ := h
  obtain ⟨ca, hca⟩ := Option.isSome_iff_exists.mp h1
  obtain ⟨st, hst⟩ := Option.isSome_iff_exists.mp h2
  obtain ⟨dir, hdir⟩ := Option.isSome_iff_exists.mp h3
  obtain ⟨cp, hcp⟩ := Option.isSome_iff_exists.mp h6
  obtain ⟨acc, hacc⟩ := Option.isSome_iff_exists.mp h7
  obtain ⟨cpr, hcpr⟩ := Option.isSome_iff_exists.mp h8
  rcases hd : r.description with _ | d
  · rw [hd] at h4
    exact absurd h4 (by simp)
  · rw [hd] at h4
    simp only [decide_eq_true_eq] at h4
    unfold parseAch
    rw [hamt2, hca, hst, hdir, hd, hcp, hacc, hcpr]
    simp [h4, h5]

/-- A valid `bookPayment` record parses successfully. -/
theorem parseBook_ok (r : RawResource) (h : validBookRaw r = true)
    (hamt : r.amount.isSome = true) :
    ∃ b : BookPayment, parseBook r = Except.ok b := by
  obtain ⟨amt, hamt2⟩ := Option.isSome_iff_exists.mp hamt
  unfold validBookRaw statusOk directionOk descLenLe at h
  simp only [Bool.and_eq_true] at h
  obtain ⟨⟨⟨⟨⟨⟨h1, h2⟩, h3⟩, h4⟩, h5⟩, h6⟩, h7⟩ := h
  obtain ⟨ca, hca⟩ := Option.isSome_iff_exists.mp h1
  obtain ⟨st, hst⟩ := Option.isSome_iff_exists.mp h2
  obtain ⟨dir, hdir⟩ := Option.isSome_iff_exists.mp h3
  obtain ⟨acc, hacc⟩ := Option.isSome_iff_exists.mp h5
  obtain ⟨cpa, hcpa⟩ := Option.isSome_iff_exists.mp h6
  obtain ⟨cpc, hcpc⟩ := Option.isSome_iff_exists.mp h7
  rcases hd : r.description with _ | d
  · rw [hd] at h4
    exact absurd h4 (by simp)
  · rw [hd] at h4
    simp only [decide_eq_true_eq] at h4
    unfold parseBook
    rw [hamt2, hca, hst, hdir, hd, hacc, hcpa, hcpc]
    simp [h4]

/-- A valid `wirePayment` record parses successfully. -/
theorem parseWire_ok (r : RawResource) (h : validWireRaw r = true)
    (hamt : r.amount.isSome = true) :
    ∃ w : WirePayment, parseWire r = Except.ok w := by
  obtain ⟨amt, hamt2⟩ := Option.isSome_iff_exists.mp hamt
  unfold validWireRaw statusOk directionOk descLenLe at h
  simp only [Bool.and_eq_true] at h
  obtain ⟨⟨⟨⟨⟨h1, h2⟩, h3⟩, h4⟩, h5⟩, h6⟩ := h
  obtain ⟨ca, hca⟩ := Option.isSome_iff_exists.mp h1
  obtain ⟨st, hst⟩ := Option.isSome_iff_exists.mp h2
  obtain ⟨dir, hdir⟩ := Option.isSome_iff_exists.mp h3
  obtain ⟨wc, hwc⟩ := Option.isSome_iff_exists.mp h5
  obtain ⟨acc, hacc⟩ := Option.isSome_iff_exists.mp h6
  rcases hd : r.description with _ | d
  · rw [hd] at h4
    exact absurd h4 (by simp)
  · rw [hd] at h4
    simp only [decide_eq_true_eq] at h4
    unfold parseWire
    rw [hamt2, hca, hst, hdir, hd, hwc, hacc]
    simp [h4]

/-- A valid `billPayment` record parses successfully. -/
theorem parseBill_ok (r : RawResource) (h : validBillRaw r = true)
    (hamt : r.amount.isSome = true) :
    ∃ b : BillPayment, parseBill r = Except.ok b := by
  obtain ⟨amt, hamt2⟩ := Option.isSome_iff_exists.mp hamt
  unfold validBillRaw statusOk directionOk descLenLe at h
  simp only [Bool.and_eq_true] at h
  obtain ⟨⟨⟨⟨⟨h1, h2⟩, h3⟩, h4⟩, h5⟩, h6⟩ := h
  obtain ⟨ca, hca⟩ := Option.isSome_iff_exists.mp h1
  obtain ⟨st, hst⟩ := Option.isSome_iff_exists.mp h2
  obtain ⟨dir, hdir⟩ := Option.isSome_iff_exists.mp h3
  obtain ⟨acc, hacc⟩ := Option.isSome_iff_exists.mp h6
  rcases hd : r.description with _ | d
  · rw [hd] at h4
    exact absurd h4 (by simp)
  · rw [hd] at h4
    simp only [decide_eq_true_eq] at h4
    unfold parseBill
    rw [hamt2, hca, hst, hdir, hd, hacc]
    simp [h4, h5]

/-- A valid `achReceivedPayment` record parses successfully. -/
theorem parseReceived_ok (r : RawResource) (h : validReceivedRaw r = true)
    (hamt : r.amount.isSome = true) :
    ∃ c : AchReceivedPayment, parseReceived r = Except.ok c := by
  obtain ⟨amt, hamt2⟩ := Option.isSome_iff_exists.mp hamt
  unfold validReceivedRaw descLenLe at h
  simp only [Bool.and_eq_true] at h
  obtain ⟨⟨⟨⟨⟨⟨⟨⟨⟨⟨⟨⟨⟨h1, h2⟩, h3⟩, h4⟩, h5⟩, h6⟩, h7⟩, h8⟩, h9⟩, h10⟩, h11⟩, h12⟩, h13⟩, h14⟩ := h
  obtain ⟨ca, hca⟩ := Option.isSome_iff_exists.mp h1
  obtain ⟨st, hst⟩ := Option.isSome_iff_exists.mp h2
  obtain ⟨wa, hwa⟩ := Option.isSome_iff_exists.mp h5
  obtain ⟨cd, hcd⟩ := Option.isSome_iff_exists.mp h6
  obtain ⟨cn, hcn⟩ := Option.isSome_iff_exists.mp h7
  obtain ⟨crn, hcrn⟩ := Option.isSome_iff_exists.mp h8
  obtain ⟨tn, htn⟩ := Option.isSome_iff_exists.mp h9
  obtain ⟨acc, hacc⟩ := Option.isSome_iff_exists.mp h14
  rcases hd : r.description with _ | d
  · rw [hd] at h3
    exact absurd h3 (by simp)
  · rw [hd] at h3
    simp only [decide_eq_true_eq] at h3
    unfold parseReceived
    rw [hamt2, hca, hst, hd, hwa, hcd, hcn, hcrn, htn, hacc]
    simp [h3, h4, h10, h11, h12, h13]

/-- C1: every valid raw resource record whose discriminator is one of the
five recognized values parses successfully, and the discriminator of the
returned variant equals the record's `type` field (the tag round-trips
through parsing). -/
theorem parseResource_tag_roundtrip (r : RawResource) (h : validRaw r = true) :
    ∃ p : Resource, parseResource r = Except.ok p ∧ Resource.tag p = r.type := by
  unfold validRaw at h
  simp only [Bool.and_eq_true] at h
  obtain ⟨⟨hnb, hamt⟩, hv⟩ := h
  have hnb2 : (r.customer.isSome && r.customers.isSome) = false := by
    rw [Bool.not_eq_true'] at hnb
    exact hnb
  have hsome : r.amount.isSome = true := by
    unfold amountPos at hamt
    rcases ha : r.amount with _ | a
    · rw [ha] at hamt
      exact absurd hamt (by simp)
    · simp [ha]
  obtain ⟨a, ha⟩ := Option.isSome_iff_exists.mp hsome
  have hpos : ¬ a ≤ 0 := by
    unfold amountPos at hamt
    rw [ha] at hamt
    simp only [decide_eq_true_eq] at hamt
    omega
  by_cases t1 : r.type = "achPayment"
  · rw [if_pos t1] at hv
    obtain ⟨pa, hpa⟩ := parseAch_ok r hv hsome
    refine ⟨Resource.ach pa, ?_, by simp [Resource.tag, t1]⟩
    unfold parseResource
    simp [hnb2, ha, hpos, t1, hpa, Except.map]
  · rw [if_neg t1] at hv
    by_cases t2 : r.type = "bookPayment"
    · rw [if_pos t2] at hv
      obtain ⟨pb, hpb⟩ := parseBook_ok r hv hsome
      refine ⟨Resource.book pb, ?_, by simp [Resource.tag, t2]⟩
      unfold parseResource
      simp [hnb2, ha, hpos, t1, t2, hpb, Except.map]
    · rw [if_neg t2] at hv
      by_cases t3 : r.type = "wirePayment"
      · rw [if_pos t3] at hv
        obtain ⟨pw, hpw⟩ := parseWire_ok r hv hsome
        refine ⟨Resource.wire pw, ?_, by simp [Resource.tag, t3]⟩
        unfold parseResource
        simp [hnb2, ha, hpos, t1, t2, t3, hpw, Except.map]
      · rw [if_neg t3] at hv
        by_cases t4 : r.type = "billPayment"
        · rw [if_pos t4] at hv
          obtain ⟨pl, hpl⟩ := parseBill_ok r hv hsome
          refine ⟨Resource.bill pl, ?_, by simp [Resource.tag, t4]⟩
          unfold parseResource
          simp [hnb2, ha, hpos, t1, t2, t3, t4, hpl, Except.map]
        · rw [if_neg t4] at hv
          by_cases t5 : r.type = "achReceivedPayment"
          · rw [if_pos t5] at hv
            obtain ⟨pc, hpc⟩ := parseReceived_ok r hv hsome
            refine ⟨Resource.received pc, ?_, by simp [Resource.tag, t5]⟩
            unfold parseResource
            simp [hnb2, ha, hpos, t1, t2, t3, t4, t5, hpc, Except.map]
          · rw [if_neg t5] at hv
            exact absurd hv (by simp)

/-- C1 witness: the round-trip at a concrete valid raw wire record. -/
theorem parseResource_tag_roundtrip_witness :
    validRaw wireResRaw1 = true ∧
    ∃ p : Resource, parseResource wireResRaw1 = Except.ok p ∧
      Resource.tag p = wireResRaw1.type :=
  ⟨by decide, parseResource_tag_roundtrip wireResRaw1 (by decide)⟩
